import Mathlib

/-!
Verification of the WiFi network discovery and connection subsystem of the
raycast-extensions repository (wifi-connector extension).

The TypeScript sources are shallowly embedded here:
  * src/services/wifi-scanner.ts    (scanNetworksAndGetCurrent)
  * src/utils/cache.ts              (getCachedNetworks / setCachedNetworks / clearNetworksCache)
  * src/services/wifi-connector.ts  (isOpenNetwork / connectToNetwork / tryConnectWithSavedPassword)
  * src/utils/password-storage.ts   (getSavedPassword)
  * src/utils/keychain.ts           (fetchPasswordFromKeychain)
  * src/index.tsx                   (handleConnect, cache-relevant skeleton)
  * src/hooks/useWiFiNetworks.ts    (loadNetworks)

External effects are embedded as explicit oracles:
  * the OS shell (execSync) becomes a function from the command string to
    an Except value (ok output / thrown error text);
  * LocalStorage becomes a function from keys to Option String;
  * invocations of the OS connect primitive are returned as an explicit
    trace (the list of command strings passed to execSync, in order).

JavaScript string primitives (trim, split, includes, search, startsWith,
regex matching used by the sources) are modelled on lists of characters so
that every definition reduces in the kernel.
-/

/-- Whitespace test modelling the characters matched by the JS regex class
backslash-s for the ASCII range (space, tab, newline, vertical tab, form
feed, carriage return). -/
def isWsChar (c : Char) : Bool :=
  c == ' ' || c == '\t' || c == '\n' || c == '\x0b' || c == '\x0c' || c == '\r'

/-- Drop leading and trailing whitespace from a character list (JS trim). -/
def trimChars (l : List Char) : List Char :=
  ((l.dropWhile isWsChar).reverse.dropWhile isWsChar).reverse

/-- Model of the JS String.prototype.trim. -/
def jsTrim (s : String) : String := ⟨trimChars s.data⟩

/-- Split a character list at every newline, modelling output.split("\n"). -/
def splitLines : List Char → List (List Char)
  | [] => [[]]
  | '\n' :: rest => [] :: splitLines rest
  | c :: rest =>
    match splitLines rest with
    | [] => [[c]]
    | l :: ls => (c :: l) :: ls

/-- Split a character list at every occurrence of colon-space, scanning left
to right with non-overlapping matches, modelling s.split(": "). -/
def splitColonSpace : List Char → List (List Char)
  | [] => [[]]
  | ':' :: ' ' :: rest => [] :: splitColonSpace rest
  | c :: rest =>
    match splitColonSpace rest with
    | [] => [[c]]
    | l :: ls => (c :: l) :: ls

/-- Substring containment on character lists, modelling JS String.includes. -/
def containsSub (hay needle : List Char) : Bool :=
  if needle.isPrefixOf hay then true
  else
    match hay with
    | [] => false
    | _ :: t => containsSub t needle

/-- Model of hay.includes(needle) for JS strings. -/
def strContains (hay needle : String) : Bool := containsSub hay.data needle.data

/-- Model of s.startsWith(pre) for JS strings. -/
def strStartsWith (s pre : String) : Bool := pre.data.isPrefixOf s.data

/-- Model of s.replace(/:$/, ""): remove a single trailing colon. -/
def stripTrailingColon (s : String) : String :=
  match s.data.reverse with
  | ':' :: rest => ⟨rest.reverse⟩
  | _ => s

/-- Index of the first non-whitespace character, modelling line.search(/\S/)
on lines that are known to contain a non-whitespace character. -/
def indentOf (line : String) : Nat :=
  line.data.findIdx (fun c => !(isWsChar c))

/-- First whitespace-delimited token of an already trimmed JS string,
modelling channelPart.split(/\s+/)[0] for trimmed channelPart. -/
def firstToken (s : String) : String :=
  ⟨s.data.takeWhile (fun c => !(isWsChar c))⟩

/-- Value of a list of decimal digit characters. -/
def natOfDigits (l : List Char) : Nat :=
  l.foldl (fun acc c => acc * 10 + (c.toNat - 48)) 0

/-- Leftmost match of the JS regex "minus-sign optional, then digits"
interpreted as an integer by parseInt: scan for the first position where an
optional minus sign is followed by digits, and take the maximal digit run
there. -/
def firstIntMatch : List Char → Option Int
  | [] => none
  | '-' :: rest =>
    match rest with
    | [] => none
    | c :: _ =>
      if c.isDigit then some (-(Int.ofNat (natOfDigits (rest.takeWhile Char.isDigit))))
      else firstIntMatch rest
  | c :: rest =>
    if c.isDigit then some (Int.ofNat (natOfDigits ((c :: rest).takeWhile Char.isDigit)))
    else firstIntMatch rest

/-- The double-quote character. -/
def dquoteChar : Char := Char.ofNat 34

/-- The dollar-sign character. -/
def dollarChar : Char := '$'

/-- The backslash character. -/
def backslashChar : Char := '\\'

/-- The backquote character (ASCII 96). -/
def backtickChar : Char := Char.ofNat 96

/-- Global single-character replacement, modelling s.replace(/c/g, r) where
the replacement string r contains no special dollar sequences. -/
def replaceChar (s : List Char) (target : Char) (replacement : List Char) : List Char :=
  s.flatMap (fun c => if c == target then replacement else [c])

/-- Shell escaping of a password exactly as built in connectToNetwork
(src/services/wifi-connector.ts): three successive global replaces that
prefix a backslash to every double quote, dollar sign and backquote. -/
def escapePassword (password : String) : String :=
  ⟨replaceChar
    (replaceChar
      (replaceChar password.data dquoteChar [backslashChar, dquoteChar])
      dollarChar [backslashChar, dollarChar])
    backtickChar [backslashChar, backtickChar]⟩

/-- Test for the three shell metacharacters escaped by escapePassword. -/
def isShellMeta (c : Char) : Bool :=
  c == dquoteChar || c == dollarChar || c == backtickChar

/-- Per-character expansion performed by escapePassword: metacharacters are
prefixed with a backslash, all other characters pass through. -/
def escOne (c : Char) : List Char :=
  if isShellMeta c then [backslashChar, c] else [c]

/-!
Data model (src/types/wifi.ts).
-/

/-- Network record produced by the scanner, from the WiFiNetwork interface
in src/types/wifi.ts. -/
structure WiFiNetwork where
  ssid : String
  rssi : Int
  security : String
  channel : String
  bssid : String
  isConnected : Bool
deriving DecidableEq, Repr

/-- Accumulator for an in-progress scan entry, modelling the TypeScript
value of type Partial WiFiNetwork used by the parsing loop: every field may
still be undefined. -/
structure PartialNetwork where
  ssid : Option String := none
  rssi : Option Int := none
  security : Option String := none
  channel : Option String := none
  bssid : Option String := none
deriving DecidableEq, Repr

/-- Cached payload, from the CachedData interface in src/types/wifi.ts.
Timestamps are integers (milliseconds since the epoch, Date.now()). -/
structure CachedData where
  version : Nat
  networks : List WiFiNetwork
  currentSSID : String
  timestamp : Int
deriving DecidableEq, Repr

/-- JS truthiness of a value of TypeScript type (string or null/undefined):
false exactly for null/undefined and the empty string. -/
def optTruthy : Option String → Bool
  | none => false
  | some s => !(s == "")

/-- JS truthiness fallback (o or d) for an optional number: 0 is falsy. -/
def jsOrInt (o : Option Int) (d : Int) : Int :=
  match o with
  | none => d
  | some v => if v == 0 then d else v

/-- JS truthiness fallback (o or d) for an optional string: the empty
string is falsy. -/
def jsOrStr (o : Option String) (d : String) : String :=
  match o with
  | none => d
  | some s => if s == "" then d else s

/-!
Network report parser (src/services/wifi-scanner.ts, scanNetworksAndGetCurrent).
-/

/-- Test used by the first pass of scanNetworksAndGetCurrent: the trimmed
line starts with a character matching the class A-Z a-z 0-9 hyphen
underscore. -/
def startsIdent (s : String) : Bool :=
  match s.data with
  | [] => false
  | c :: _ => c.isAlphanum || c == '-' || c == '_'

/-- First pass of scanNetworksAndGetCurrent: extract the current network
name. The boolean argument is the loop variable foundCurrentNetwork; hitting
the end of the lines, or a break, leaves currentNetwork at its last value,
which is the empty string except in the branch that also breaks. -/
def findCurrentNetwork : List String → Bool → String
  | [], _ => ""
  | line :: rest, found =>
    if strContains line "Current Network Information:" then
      findCurrentNetwork rest true
    else if found && startsIdent (jsTrim line) then
      stripTrailingColon (jsTrim line)
    else if found && strContains line ":" && !(strStartsWith line "        ") then
      ""
    else
      findCurrentNetwork rest found

/-- Property format test of the second pass: the trimmed line contains
colon-space and splits on it into exactly two parts. -/
def hasPropertyFormat (trimmed : String) : Bool :=
  strContains trimmed ": " && (splitColonSpace trimmed.data).length == 2

/-- Second component of the colon-space split, trimmed; models
trimmed.split(": ")[1]?.trim() with an empty-string default. -/
def propValue (trimmed : String) : String :=
  jsTrim ⟨(splitColonSpace trimmed.data).getD 1 []⟩

/-- Property-line handling of the second pass of scanNetworksAndGetCurrent:
update the in-progress entry according to the recognized key. -/
def updateEntry (entry : PartialNetwork) (trimmed : String) : PartialNetwork :=
  if strStartsWith trimmed "Security:" then
    { entry with security := some (jsOrStr (some (propValue trimmed)) "Unknown") }
  else if strStartsWith trimmed "Channel:" then
    { entry with channel := some (firstToken (propValue trimmed)) }
  else if strContains trimmed "Signal / Noise:" then
    { entry with rssi := some ((firstIntMatch trimmed.data).getD (-70)) }
  else if strStartsWith trimmed "BSSID:" || strStartsWith trimmed "MAC Address:" then
    { entry with bssid := some (propValue trimmed) }
  else
    entry

/-- Completeness test guarding every flush: the accumulated entry has a
truthy (present and non-empty) ssid and channel. -/
def entryComplete (e : PartialNetwork) : Bool :=
  optTruthy e.ssid && optTruthy e.channel

/-- Record built when an accumulated entry is flushed, including the JS
truthiness defaults of the source: rssi falls back to -70, security to
"Unknown", bssid to ssid-channel. -/
def mkNetwork (e : PartialNetwork) (currentNetwork : String) : WiFiNetwork :=
  let ssid := e.ssid.getD ""
  let channel := e.channel.getD ""
  { ssid := ssid
    rssi := jsOrInt e.rssi (-70)
    security := jsOrStr e.security "Unknown"
    channel := channel
    bssid := jsOrStr e.bssid (ssid ++ "-" ++ channel)
    isConnected := ssid == currentNetwork }

/-- Flush of the accumulated entry: emit one record when the entry is
complete, nothing otherwise. -/
def flushEntry (e : PartialNetwork) (currentNetwork : String) : List WiFiNetwork :=
  if entryComplete e then [mkNetwork e currentNetwork] else []

/-- Second pass of scanNetworksAndGetCurrent as a recursion over the lines,
with the loop state (inNetworkSection, currentEntry, networkIndent) passed
explicitly. Reaching the end of the lines, or the break on a new top-level
section, appends the final flush of the in-progress entry (the "Add last
entry if valid" block of the source). -/
def parseLoop : List String → Bool → PartialNetwork → Nat → String → List WiFiNetwork
  | [], _, entry, _, currentNetwork => flushEntry entry currentNetwork
  | line :: rest, inSection, entry, networkIndent, currentNetwork =>
    let trimmed := jsTrim line
    if strContains trimmed "Other Local Wi-Fi Networks:" then
      parseLoop rest true entry networkIndent currentNetwork
    else if !inSection then
      parseLoop rest inSection entry networkIndent currentNetwork
    else if line.data.length > 0 && !(line.data.headD ' ' == ' ') && strContains line ":" then
      flushEntry entry currentNetwork
    else if trimmed == "" then
      parseLoop rest inSection entry networkIndent currentNetwork
    else
      let currentIndent := indentOf line
      if !(hasPropertyFormat trimmed) && trimmed.data.length > 0 then
        let indent2 := if networkIndent == 0 then currentIndent else networkIndent
        if currentIndent == indent2 then
          flushEntry entry currentNetwork ++
            parseLoop rest inSection { ssid := some (stripTrailingColon trimmed) } indent2 currentNetwork
        else
          parseLoop rest inSection entry indent2 currentNetwork
      else if hasPropertyFormat trimmed && optTruthy entry.ssid then
        parseLoop rest inSection (updateEntry entry trimmed) networkIndent currentNetwork
      else
        parseLoop rest inSection entry networkIndent currentNetwork

/-- Deduplication key: the (ssid, channel) pair. -/
def netKey (n : WiFiNetwork) : String × String := (n.ssid, n.channel)

/-- Deduplication keeping the first occurrence of every (ssid, channel)
key, equivalent to the filter-findIndex idiom of the source. -/
def dedupAux : List WiFiNetwork → List (String × String) → List WiFiNetwork
  | [], _ => []
  | n :: rest, seen =>
    if seen.contains (netKey n) then dedupAux rest seen
    else n :: dedupAux rest (netKey n :: seen)

/-- Remove duplicates based on the SSID + channel combination. -/
def dedupNetworks (l : List WiFiNetwork) : List WiFiNetwork := dedupAux l []

/-- Stable insertion into a list sorted by descending rssi. -/
def insertDesc (n : WiFiNetwork) : List WiFiNetwork → List WiFiNetwork
  | [] => [n]
  | m :: rest => if n.rssi ≥ m.rssi then n :: m :: rest else m :: insertDesc n rest

/-- Stable sort by descending rssi, modelling the JS stable
Array.prototype.sort with comparator b.rssi - a.rssi. -/
def sortByRssiDesc : List WiFiNetwork → List WiFiNetwork
  | [] => []
  | n :: rest => insertDesc n (sortByRssiDesc rest)

/-- Lines of the raw report, modelling output.split("\n"). -/
def reportLines (output : String) : List String :=
  (splitLines output.data).map (fun l => ⟨l⟩)

/-- Pure parsing core of scanNetworksAndGetCurrent applied to the captured
stdout of the system_profiler command. -/
def parseReport (output : String) : String × List WiFiNetwork :=
  let lines := reportLines output
  let currentNetwork := findCurrentNetwork lines false
  let networks := parseLoop lines false {} 0 currentNetwork
  (currentNetwork, sortByRssiDesc (dedupNetworks networks))

/-- Whole scanNetworksAndGetCurrent, with the execSync invocation of
system_profiler embedded as an oracle value: ok carries the captured
stdout, error carries a thrown failure (non-zero exit, timeout, or buffer
overflow), which the catch block turns into the empty snapshot. -/
def scanNetworksAndGetCurrent (scanExec : Except String String) : String × List WiFiNetwork :=
  match scanExec with
  | Except.ok output => parseReport output
  | Except.error _ => ("", [])

/-!
Network cache (src/utils/cache.ts). The single Raycast Cache slot under the
key "wifi-networks" is embedded as an Option CachedData value threaded
explicitly; JSON serialization of well-formed CachedData round-trips and is
modelled as the identity, so the JSON.parse catch branch (which also yields
null) has no separate representative. Date.now() becomes an explicit now
argument.
-/

/-- Cache version constant of src/utils/cache.ts. -/
def CACHE_VERSION : Nat := 3

/-- Cache freshness window of src/utils/cache.ts, in milliseconds. -/
def CACHE_DURATION : Int := 5000

/-- Model of getCachedNetworks: absent slot, version mismatch, or age at
least CACHE_DURATION all yield null. -/
def getCachedNetworks (now : Int) (slot : Option CachedData) : Option CachedData :=
  match slot with
  | none => none
  | some parsed =>
    let cacheAge := now - parsed.timestamp
    if parsed.version == CACHE_VERSION && cacheAge < CACHE_DURATION then some parsed
    else none

/-- Model of setCachedNetworks: overwrite the slot with the current version
and the current time. -/
def setCachedNetworks (now : Int) (networks : List WiFiNetwork) (currentSSID : String) :
    Option CachedData → Option CachedData :=
  fun _ => some { version := CACHE_VERSION, networks := networks, currentSSID := currentSSID, timestamp := now }

/-- Model of clearNetworksCache: remove the slot unconditionally. -/
def clearNetworksCache : Option CachedData → Option CachedData :=
  fun _ => none

/-!
Connection controller (src/services/wifi-connector.ts). The execSync oracle
maps a command string to ok () (exit status zero) or error msg (the thrown
error converted to text by String(error)). Every embedded operation also
returns the trace of commands passed to execSync, in order.
-/

/-- Result record of the connection functions, from the ConnectionResult
interface of src/services/wifi-connector.ts; the optional fields are
undefined (none) unless set. -/
structure ConnectionResult where
  success : Bool
  message : String
  requiresPassword : Option Bool := none
  usedSavedPassword : Option Bool := none
deriving DecidableEq, Repr

/-- Model of isOpenNetwork: the security label is compared for exact
equality against the three literals. -/
def isOpenNetwork (network : WiFiNetwork) : Bool :=
  network.security == "Open" || network.security == "OPEN" || network.security == "None"

/-- Command built for an open network (no password argument). -/
def openConnectCommand (wifiInterface ssid : String) : String :=
  "/usr/sbin/networksetup -setairportnetwork " ++ wifiInterface ++ " \"" ++ ssid ++ "\""

/-- Command built for a secured network with the escaped password appended
as a quoted argument. -/
def securedConnectCommand (wifiInterface ssid escapedPassword : String) : String :=
  "/usr/sbin/networksetup -setairportnetwork " ++ wifiInterface ++ " \"" ++ ssid ++ "\" \"" ++
    escapedPassword ++ "\""

/-- Error classification of the catch block of connectToNetwork:
best-effort substring sniffing of the thrown error text. -/
def classifyError (errorMsg : String) : ConnectionResult :=
  if strContains errorMsg "password" || strContains errorMsg "authentication" then
    { success := false, message := "Incorrect password or authentication failed" }
  else if strContains errorMsg "network" || strContains errorMsg "not found" then
    { success := false, message := "Network not available" }
  else
    { success := false, message := errorMsg }

/-- Single execSync invocation of the connect primitive together with its
one-element command trace. -/
def execConnect (osExec : String → Except String Unit) (command : String) (network : WiFiNetwork) :
    ConnectionResult × List String :=
  match osExec command with
  | Except.ok _ => ({ success := true, message := "Connected to " ++ network.ssid }, [command])
  | Except.error e => (classifyError e, [command])

/-- Model of connectToNetwork. The password parameter is optional; the
secured branch is taken only when the password is truthy (defined and
non-empty), exactly as the JS condition else-if password. The snd component
is the list of commands passed to execSync. -/
def connectToNetwork (osExec : String → Except String Unit) (network : WiFiNetwork)
    (wifiInterface : String) (password : Option String) : ConnectionResult × List String :=
  if isOpenNetwork network then
    execConnect osExec (openConnectCommand wifiInterface network.ssid) network
  else if optTruthy password then
    execConnect osExec
      (securedConnectCommand wifiInterface network.ssid (escapePassword (password.getD "")))
      network
  else
    ({ success := false, message := "Password required for this network", requiresPassword := some true }, [])

/-!
Saved-password storage (src/utils/password-storage.ts) and Keychain lookup
(src/utils/keychain.ts). LocalStorage is an oracle from keys to
Option String; the Keychain security command is an oracle from the command
string to ok stdout / error message.
-/

/-- Key base of password-storage.ts (the constant named
STORAGE_KEY_PREFIX there). -/
def storageKeyBase : String := "wifi-password-"

/-- Model of getSavedPassword: read the LocalStorage key and coerce falsy
values (absent, empty string) to null. -/
def getSavedPassword (storage : String → Option String) (ssid : String) : Option String :=
  match storage (storageKeyBase ++ ssid) with
  | none => none
  | some password => if password == "" then none else some password

/-- Hexadecimal digit character (lowercase letters), for the control
character escapes of JSON.stringify. -/
def hexDigitChar (n : Nat) : Char :=
  if n < 10 then Char.ofNat (48 + n) else Char.ofNat (97 + n - 10)

/-- Escape of one character in a JSON string literal as produced by
JSON.stringify on a string argument. -/
def jsonEscapeChar (c : Char) : List Char :=
  if c == dquoteChar then [backslashChar, dquoteChar]
  else if c == backslashChar then [backslashChar, backslashChar]
  else if c == Char.ofNat 8 then [backslashChar, 'b']
  else if c == '\t' then [backslashChar, 't']
  else if c == '\n' then [backslashChar, 'n']
  else if c == Char.ofNat 12 then [backslashChar, 'f']
  else if c == '\r' then [backslashChar, 'r']
  else if c.toNat < 32 then
    [backslashChar, 'u', '0', '0', hexDigitChar (c.toNat / 16), hexDigitChar (c.toNat % 16)]
  else [c]

/-- Model of JSON.stringify applied to a string value. -/
def jsonStringifyStr (s : String) : String :=
  ⟨[dquoteChar] ++ s.data.flatMap jsonEscapeChar ++ [dquoteChar]⟩

/-- Keychain query command built by fetchPasswordFromKeychain. -/
def keychainCommand (ssid : String) : String :=
  "security find-generic-password -wa " ++ jsonStringifyStr ssid

/-- Model of fetchPasswordFromKeychain: run the security command, trim its
stdout, and coerce a falsy (empty) result to null; any thrown error is
caught and yields null. -/
def fetchPasswordFromKeychain (keychainExec : String → Except String String) (ssid : String) :
    Option String :=
  match keychainExec (keychainCommand ssid) with
  | Except.error _ => none
  | Except.ok raw =>
    let result := jsTrim raw
    if result == "" then none else some result

/-- Model of tryConnectWithSavedPassword: open networks connect directly
with no password; otherwise the saved password is looked up through
getSavedPassword and, when truthy, tried exactly once. -/
def tryConnectWithSavedPassword (osExec : String → Except String Unit)
    (storage : String → Option String) (network : WiFiNetwork) (wifiInterface : String) :
    ConnectionResult × List String :=
  if isOpenNetwork network then
    connectToNetwork osExec network wifiInterface none
  else
    let savedPassword := getSavedPassword storage network.ssid
    if optTruthy savedPassword then
      let r := connectToNetwork osExec network wifiInterface savedPassword
      if r.1.success then
        ({ r.1 with usedSavedPassword := some true }, r.2)
      else
        ({ success := false, message := "Saved password didn\x27t work", requiresPassword := some true }, r.2)
    else
      ({ success := false, message := "Password required for this network", requiresPassword := some true }, [])

/-!
UI layer skeleton: loadNetworks (src/hooks/useWiFiNetworks.ts) and
handleConnect (src/index.tsx), restricted to their data effects (scan,
connect, cache transitions); toasts and React state are display-only and
omitted.
-/

/-- Outcome of handleConnect as observable by the caller. -/
inductive ConnectOutcome where
  | promptPassword
  | connectFailed (message : String)
  | connected (message : String)
deriving DecidableEq, Repr

/-- Model of loadNetworks: serve from the cache when the cached entry is
valid, otherwise scan and overwrite the cache. Returns the displayed
snapshot and the new cache slot. -/
def loadNetworks (scanExec : Except String String) (now : Int) (slot : Option CachedData) :
    (List WiFiNetwork × String) × Option CachedData :=
  match getCachedNetworks now slot with
  | some cachedData => ((cachedData.networks, cachedData.currentSSID), slot)
  | none =>
    let r := scanNetworksAndGetCurrent scanExec
    ((r.2, r.1), setCachedNetworks now r.2 r.1 slot)

/-- Model of handleConnect (src/index.tsx): an untruthy password on a
network whose security is neither "Open" nor "OPEN" opens the password
form; otherwise connectToNetwork runs, and only on success is the cache
cleared and loadNetworks re-run. -/
def handleConnect (osExec : String → Except String Unit) (scanExec : Except String String)
    (now : Int) (wifiInterface : String) (network : WiFiNetwork) (password : Option String)
    (slot : Option CachedData) : ConnectOutcome × Option CachedData :=
  if !(optTruthy password) && !(network.security == "Open") && !(network.security == "OPEN") then
    (ConnectOutcome.promptPassword, slot)
  else
    let result := (connectToNetwork osExec network wifiInterface password).1
    if !result.success then
      (ConnectOutcome.connectFailed result.message, slot)
    else
      (ConnectOutcome.connected result.message,
        (loadNetworks scanExec now (clearNetworksCache slot)).2)

/-!
Definition written from the specification text, for comparison with the
source-derived isOpenNetwork (claim C1): the spec says a network is open
when its security label equals "Open" under case-insensitive comparison,
or equals "None".
-/

/-- Lowercasing of a string, character by character. -/
def toLowerStr (s : String) : String := ⟨s.data.map Char.toLower⟩

/-- Open-network test as worded by the specification: "Open"
case-insensitive, or "None". -/
def isOpenNetworkSpec (network : WiFiNetwork) : Bool :=
  toLowerStr network.security == "open" || network.security == "None"

/-!
Helper lemmas.
-/

/-- Records produced by a flush always carry the truthy ssid and channel
demanded by the completeness guard. -/
theorem flushEntry_mem (e : PartialNetwork) (cn : String) (r : WiFiNetwork)
    (hr : r ∈ flushEntry e cn) : r.ssid ≠ "" ∧ r.channel ≠ "" := by
  unfold flushEntry at hr
  split at hr
  · rename_i hcomp
    simp only [List.mem_singleton] at hr
    subst hr
    unfold entryComplete at hcomp
    rw [Bool.and_eq_true] at hcomp
    obtain ⟨hs, hc⟩ := hcomp
    cases hes : e.ssid with
    | none => rw [hes] at hs; simp [optTruthy] at hs
    | some s =>
      cases hec : e.channel with
      | none => rw [hec] at hc; simp [optTruthy] at hc
      | some c =>
        rw [hes] at hs; rw [hec] at hc
        simp only [optTruthy, Bool.not_eq_true'] at hs hc
        constructor
        · show (mkNetwork e cn).ssid ≠ ""
          simp only [mkNetwork, hes, Option.getD_some]
          exact fun h => by subst h; simp at hs
        · show (mkNetwork e cn).channel ≠ ""
          simp only [mkNetwork, hec, Option.getD_some]
          exact fun h => by subst h; simp at hc
  · simp at hr

/-- Every record emitted by the parsing loop has a non-empty ssid and a
non-empty channel, because every emission goes through a flush. -/
theorem parseLoop_mem (lines : List String) :
    ∀ inSection entry networkIndent cn r,
      r ∈ parseLoop lines inSection entry networkIndent cn →
      r.ssid ≠ "" ∧ r.channel ≠ "" := by
  induction lines with
  | nil =>
    intro inSection entry networkIndent cn r hr
    exact flushEntry_mem entry cn r hr
  | cons line rest ih =>
    intro inSection entry networkIndent cn r hr
    simp only [parseLoop] at hr
    split at hr
    · exact ih _ _ _ _ _ hr
    · split at hr
      · exact ih _ _ _ _ _ hr
      · split at hr
        · exact flushEntry_mem entry cn r hr
        · split at hr
          · exact ih _ _ _ _ _ hr
          · split at hr
            · split at hr
              · split at hr
                · rw [List.mem_append] at hr
                  cases hr with
                  | inl h => exact flushEntry_mem entry cn r h
                  | inr h => exact ih _ _ _ _ _ h
                · exact ih _ _ _ _ _ hr
              · split at hr
                · rw [List.mem_append] at hr
                  cases hr with
                  | inl h => exact flushEntry_mem entry cn r h
                  | inr h => exact ih _ _ _ _ _ h
                · exact ih _ _ _ _ _ hr
            · split at hr
              · exact ih _ _ _ _ _ hr
              · exact ih _ _ _ _ _ hr

/-- Every record kept by deduplication comes from the input list. -/
theorem dedupAux_subset (l : List WiFiNetwork) :
    ∀ seen r, r ∈ dedupAux l seen → r ∈ l := by
  induction l with
  | nil => intro seen r hr; simp [dedupAux] at hr
  | cons n rest ih =>
    intro seen r hr
    simp only [dedupAux] at hr
    split at hr
    · exact List.mem_cons_of_mem n (ih _ r hr)
    · rw [List.mem_cons] at hr
      cases hr with
      | inl h => rw [h]; exact List.mem_cons_self n rest
      | inr h => exact List.mem_cons_of_mem n (ih _ r h)

/-- Records kept by deduplication have a key outside the seen set, and each
is the first entry of the input carrying its key. -/
theorem dedupAux_first (l : List WiFiNetwork) :
    ∀ seen r, r ∈ dedupAux l seen →
      seen.contains (netKey r) = false ∧
      (l.filter (fun n => netKey n == netKey r)).head? = some r := by
  induction l with
  | nil => intro seen r hr; simp [dedupAux] at hr
  | cons n rest ih =>
    intro seen r hr
    simp only [dedupAux] at hr
    split at hr
    · rename_i hseen
      obtain ⟨hnot, hhead⟩ := ih seen r hr
      have hne : (netKey n == netKey r) = false := by
        rw [beq_eq_false_iff_ne]
        intro heq
        rw [heq] at hseen
        rw [hseen] at hnot
        exact Bool.true_eq_false ▸ hnot
      refine ⟨hnot, ?_⟩
      rw [List.filter_cons, if_neg (by simp [hne])]
      exact hhead
    · rename_i hseen
      rw [Bool.not_eq_true] at hseen
      rw [List.mem_cons] at hr
      cases hr with
      | inl h =>
        subst h
        refine ⟨hseen, ?_⟩
        rw [List.filter_cons, if_pos (by simp)]
        exact List.head?_cons
      | inr h =>
        obtain ⟨hnot, hhead⟩ := ih _ r h
        rw [List.contains_cons, Bool.or_eq_false_iff] at hnot
        obtain ⟨h1, h2⟩ := hnot
        have hne : (netKey n == netKey r) = false := by
          rw [beq_eq_false_iff_ne]
          intro heq
          rw [beq_eq_false_iff_ne] at h1
          exact h1 heq.symm
        refine ⟨h2, ?_⟩
        rw [List.filter_cons, if_neg (by simp [hne])]
        exact hhead

/-- Keys of the deduplicated list are pairwise distinct. -/
theorem dedupAux_keys_nodup (l : List WiFiNetwork) :
    ∀ seen, ((dedupAux l seen).map netKey).Nodup := by
  induction l with
  | nil => intro seen; simp [dedupAux]
  | cons n rest ih =>
    intro seen
    simp only [dedupAux]
    split
    · exact ih seen
    · rw [List.map_cons, List.nodup_cons]
      refine ⟨?_, ih _⟩
      intro hmem
      rw [List.mem_map] at hmem
      obtain ⟨r, hr, hkey⟩ := hmem
      have := (dedupAux_first rest (netKey n :: seen) r hr).1
      rw [List.contains_cons, hkey] at this
      simp at this

/-- Stable descending insertion permutes the extended list. -/
theorem insertDesc_perm (n : WiFiNetwork) (l : List WiFiNetwork) :
    (insertDesc n l).Perm (n :: l) := by
  induction l with
  | nil => exact List.Perm.refl _
  | cons m rest ih =>
    simp only [insertDesc]
    split
    · exact List.Perm.refl _
    · exact (ih.cons m).trans (List.Perm.swap n m rest)

/-- The sort of the scanner permutes its input. -/
theorem sortByRssiDesc_perm (l : List WiFiNetwork) : (sortByRssiDesc l).Perm l := by
  induction l with
  | nil => exact List.Perm.refl _
  | cons n rest ih =>
    exact (insertDesc_perm n (sortByRssiDesc rest)).trans (ih.cons n)

/-- The record list of parseReport in terms of the parsing pipeline. -/
theorem parseReport_records (output : String) :
    (parseReport output).2 =
      sortByRssiDesc (dedupNetworks
        (parseLoop (reportLines output) false {} 0 (findCurrentNetwork (reportLines output) false))) := rfl

/-- Membership in the final record list factors through the raw loop
output. -/
theorem parseReport_mem_raw (output : String) (r : WiFiNetwork)
    (hr : r ∈ (parseReport output).2) :
    r ∈ parseLoop (reportLines output) false {} 0 (findCurrentNetwork (reportLines output) false) := by
  rw [parseReport_records] at hr
  have h1 := (sortByRssiDesc_perm _).mem_iff.mp hr
  exact dedupAux_subset _ _ r h1

/-- Every record of the final snapshot has a non-empty ssid and channel. -/
theorem parseReport_mem_nonempty (output : String) (r : WiFiNetwork)
    (hr : r ∈ (parseReport output).2) : r.ssid ≠ "" ∧ r.channel ≠ "" :=
  parseLoop_mem _ _ _ _ _ r (parseReport_mem_raw output r hr)

/-- Distribution of a global character replacement over concatenation. -/
theorem replaceChar_append (a b : List Char) (t : Char) (r : List Char) :
    replaceChar (a ++ b) t r = replaceChar a t r ++ replaceChar b t r := by
  unfold replaceChar
  exact List.flatMap_append a b _

/-- Effect of the three nested replaces on one character. -/
theorem escOne_step (c : Char) :
    replaceChar
      (replaceChar
        (replaceChar [c] dquoteChar [backslashChar, dquoteChar])
        dollarChar [backslashChar, dollarChar])
      backtickChar [backslashChar, backtickChar] = escOne c := by
  by_cases h1 : c = dquoteChar
  · subst h1; rfl
  · by_cases h2 : c = dollarChar
    · subst h2; rfl
    · by_cases h3 : c = backtickChar
      · subst h3; rfl
      · have b1 : (c == dquoteChar) = false := beq_eq_false_iff_ne.mpr h1
        have b2 : (c == dollarChar) = false := beq_eq_false_iff_ne.mpr h2
        have b3 : (c == backtickChar) = false := beq_eq_false_iff_ne.mpr h3
        simp [replaceChar, escOne, isShellMeta, b1, b2, b3, h1, h2, h3]

/-- The three successive replaces amount to the single-pass per-character
escape expansion. -/
theorem escapePassword_data (p : String) :
    (escapePassword p).data = p.data.flatMap escOne := by
  show replaceChar
      (replaceChar
        (replaceChar p.data dquoteChar [backslashChar, dquoteChar])
        dollarChar [backslashChar, dollarChar])
      backtickChar [backslashChar, backtickChar] = p.data.flatMap escOne
  induction p.data with
  | nil => rfl
  | cons c cs ih =>
    have hsplit : (c :: cs) = [c] ++ cs := rfl
    rw [hsplit, replaceChar_append, replaceChar_append, replaceChar_append,
      List.flatMap_append, ih, escOne_step]
    have hone : ([c] : List Char).flatMap escOne = escOne c := by
      simp [List.flatMap_cons]
    rw [hone]

/-- The escaped expansion of a character list never starts with a shell
metacharacter. -/
theorem flatMap_escOne_head (cs : List Char) :
    isShellMeta ((cs.flatMap escOne).getD 0 'a') = false := by
  cases cs with
  | nil => decide
  | cons c cs2 =>
    rw [List.flatMap_cons]
    unfold escOne
    split
    · rw [List.cons_append, List.getD_cons_zero]
      decide
    · rename_i h
      rw [Bool.not_eq_true] at h
      rw [List.cons_append, List.getD_cons_zero]
      exact h

/-- In the escaped expansion, every shell metacharacter occurrence sits
right after a backslash. Positions are read with getD and a non-meta
default character. -/
theorem flatMap_escOne_meta_prefixed (cs : List Char) :
    ∀ i, isShellMeta ((cs.flatMap escOne).getD i 'a') = true →
      0 < i ∧ (cs.flatMap escOne).getD (i - 1) 'a' = backslashChar := by
  induction cs with
  | nil =>
    intro i h
    have hd : (([] : List Char).flatMap escOne).getD i 'a' = 'a' := by
      simp [List.getD]
    rw [hd] at h
    exact absurd h (by decide)
  | cons c cs2 ih =>
    intro i h
    rw [List.flatMap_cons] at h ⊢
    by_cases hm : isShellMeta c = true
    · rw [escOne, if_pos hm] at h ⊢
      match i with
      | 0 =>
        rw [List.cons_append, List.getD_cons_zero] at h
        exact absurd h (by decide)
      | 1 =>
        refine ⟨Nat.zero_lt_one, ?_⟩
        simp [List.cons_append, List.getD_cons_zero]
      | (j+2) =>
        have hL : ([backslashChar, c] ++ cs2.flatMap escOne).getD (j + 2) 'a' =
            (cs2.flatMap escOne).getD j 'a' := by
          simp [List.cons_append, List.getD_cons_succ]
        rw [hL] at h
        obtain ⟨hj, hback⟩ := ih j h
        refine ⟨by omega, ?_⟩
        cases j with
        | zero => omega
        | succ k =>
          have hK : ([backslashChar, c] ++ cs2.flatMap escOne).getD (k + 2) 'a' =
              (cs2.flatMap escOne).getD k 'a' := by
            simp [List.cons_append, List.getD_cons_succ]
          rw [show (k + 1 + 2 - 1) = k + 2 by omega, hK]
          exact hback
    · rw [Bool.not_eq_true] at hm
      rw [escOne, if_neg (by simp [hm])] at h ⊢
      match i with
      | 0 =>
        rw [List.cons_append, List.getD_cons_zero] at h
        rw [h] at hm
        exact absurd hm (by decide)
      | (j+1) =>
        have hL : ([c] ++ cs2.flatMap escOne).getD (j + 1) 'a' =
            (cs2.flatMap escOne).getD j 'a' := by
          simp [List.cons_append, List.getD_cons_succ]
        rw [hL] at h
        cases j with
        | zero =>
          rw [flatMap_escOne_head cs2] at h
          exact absurd h (by decide)
        | succ k =>
          obtain ⟨hk, hback⟩ := ih (k + 1) h
          refine ⟨by omega, ?_⟩
          have hK : ([c] ++ cs2.flatMap escOne).getD (k + 1) 'a' =
              (cs2.flatMap escOne).getD k 'a' := by
            simp [List.cons_append, List.getD_cons_succ]
          rw [show (k + 1 + 1 - 1) = k + 1 by omega, hK]
          exact hback

/-- Without a current-network section header, the first pass yields the
empty current network. -/
theorem findCurrentNetwork_no_header (lines : List String)
    (h : ∀ l ∈ lines, strContains l "Current Network Information:" = false) :
    findCurrentNetwork lines false = "" := by
  induction lines with
  | nil => rfl
  | cons line rest ih =>
    have h1 := h line (List.mem_cons_self line rest)
    simp only [findCurrentNetwork, h1, Bool.false_eq_true, if_false, Bool.false_and]
    exact ih (fun l hl => h l (List.mem_cons_of_mem line hl))

/-- Without an other-networks section header, the second pass never enters
the section and ends with the final flush of the untouched entry. -/
theorem parseLoop_no_section (lines : List String)
    (h : ∀ l ∈ lines, strContains (jsTrim l) "Other Local Wi-Fi Networks:" = false) :
    ∀ entry networkIndent cn,
      parseLoop lines false entry networkIndent cn = flushEntry entry cn := by
  induction lines with
  | nil => intro entry networkIndent cn; rfl
  | cons line rest ih =>
    intro entry networkIndent cn
    have h1 := h line (List.mem_cons_self line rest)
    simp only [parseLoop, h1, Bool.false_eq_true, if_false, Bool.not_false, if_true]
    exact ih (fun l hl => h l (List.mem_cons_of_mem line hl)) entry networkIndent cn

/-- A saved password handed out by getSavedPassword is non-empty and is the
stored value. -/
theorem getSavedPassword_some (storage : String → Option String) (ssid p : String)
    (h : getSavedPassword storage ssid = some p) :
    p ≠ "" ∧ storage (storageKeyBase ++ ssid) = some p := by
  unfold getSavedPassword at h
  cases hs : storage (storageKeyBase ++ ssid) with
  | none => rw [hs] at h; exact absurd h (by simp)
  | some q =>
    rw [hs] at h
    dsimp only [] at h
    by_cases hq : (q == "") = true
    · rw [if_pos hq] at h
      exact absurd h (by simp)
    · rw [if_neg hq] at h
      rw [Bool.not_eq_true, beq_eq_false_iff_ne] at hq
      obtain rfl : q = p := by injection h
      exact ⟨hq, rfl⟩

/-- getSavedPassword never returns the empty string. -/
theorem getSavedPassword_ne_empty (storage : String → Option String) (ssid : String) :
    getSavedPassword storage ssid ≠ some "" := by
  intro h
  exact (getSavedPassword_some storage ssid "" h).1 rfl

/-- The source's open-network test in propositional form. -/
theorem isOpenNetwork_iff (n : WiFiNetwork) :
    isOpenNetwork n = true ↔
      (n.security = "Open" ∨ n.security = "OPEN" ∨ n.security = "None") := by
  unfold isOpenNetwork
  simp [Bool.or_eq_true, beq_iff_eq, or_assoc]

/-- The trace of a single primitive invocation is that one command. -/
theorem execConnect_trace (osExec : String → Except String Unit) (command : String)
    (n : WiFiNetwork) : (execConnect osExec command n).2 = [command] := by
  unfold execConnect
  cases osExec command <;> rfl

/-- For an open network, connectToNetwork always runs the passwordless
command, whatever the password argument. -/
theorem connectToNetwork_open (osExec : String → Except String Unit) (n : WiFiNetwork)
    (wifiInterface : String) (password : Option String) (hopen : isOpenNetwork n = true) :
    connectToNetwork osExec n wifiInterface password =
      execConnect osExec (openConnectCommand wifiInterface n.ssid) n := by
  unfold connectToNetwork
  rw [if_pos hopen]

/-- For a secured network and a truthy password, connectToNetwork runs the
escaped-password command. -/
theorem connectToNetwork_secured (osExec : String → Except String Unit) (n : WiFiNetwork)
    (wifiInterface : String) (p : String) (hsec : isOpenNetwork n = false) (hp : p ≠ "") :
    connectToNetwork osExec n wifiInterface (some p) =
      execConnect osExec (securedConnectCommand wifiInterface n.ssid (escapePassword p)) n := by
  unfold connectToNetwork
  rw [if_neg (by simp [hsec]), if_pos (by simp [optTruthy, hp])]
  rfl

/-- For a secured network and an untruthy password, connectToNetwork asks
for a password without invoking the primitive. -/
theorem connectToNetwork_nopass (osExec : String → Except String Unit) (n : WiFiNetwork)
    (wifiInterface : String) (password : Option String) (hsec : isOpenNetwork n = false)
    (hp : optTruthy password = false) :
    connectToNetwork osExec n wifiInterface password =
      ({ success := false, message := "Password required for this network",
         requiresPassword := some true }, []) := by
  unfold connectToNetwork
  rw [if_neg (by simp [hsec]), if_neg (by simp [hp])]

/-- For a secured network, tryConnectWithSavedPassword reduces to the
saved-password flow over the result of getSavedPassword. -/
theorem tryConnect_secured (osExec : String → Except String Unit)
    (storage : String → Option String) (n : WiFiNetwork) (wifiInterface : String)
    (hsec : isOpenNetwork n = false) :
    tryConnectWithSavedPassword osExec storage n wifiInterface =
      (if optTruthy (getSavedPassword storage n.ssid) then
        (let r := connectToNetwork osExec n wifiInterface (getSavedPassword storage n.ssid)
         if r.1.success then ({ r.1 with usedSavedPassword := some true }, r.2)
         else ({ success := false, message := "Saved password didn\x27t work",
                 requiresPassword := some true }, r.2))
      else
        ({ success := false, message := "Password required for this network",
           requiresPassword := some true }, [])) := by
  unfold tryConnectWithSavedPassword
  rw [if_neg (by simp [hsec])]

/-!
Concrete fixtures used by counterexamples and witnesses.
-/

/-- Oracle for a shell whose connect invocations all succeed. -/
def okExec : String → Except String Unit := fun _ => Except.ok ()

/-- Oracle for a shell whose connect invocations throw an authentication
failure. -/
def authFailExec : String → Except String Unit :=
  fun _ => Except.error "Error: authentication failed"

/-- LocalStorage with no saved entries. -/
def emptyStorage : String → Option String := fun _ => none

/-- LocalStorage holding the password "pw" for the network "Sec". -/
def pwStorage : String → Option String :=
  fun k => if k == "wifi-password-Sec" then some "pw" else none

/-- A secured (WPA2) network. -/
def securedNet : WiFiNetwork :=
  { ssid := "Sec", rssi := -50, security := "WPA2", channel := "1", bssid := "b",
    isConnected := false }

/-- A network whose security label is the lowercase string "open". -/
def lowerOpenNet : WiFiNetwork :=
  { ssid := "Cafe", rssi := -50, security := "open", channel := "1", bssid := "b",
    isConnected := false }

/-- A network whose security label is exactly "Open". -/
def openNet : WiFiNetwork :=
  { ssid := "CafeWifi", rssi := -50, security := "Open", channel := "1", bssid := "b",
    isConnected := false }

/-- A valid cache entry written at time 0 with the current version. -/
def homeCache : CachedData :=
  { version := 3, networks := [], currentSSID := "Home", timestamp := 0 }

/-- A report with a current-network section and a duplicated scan entry
(CafeWifi appears twice on channel 11 with different attributes). -/
def wellFormedReport : String :=
  "Wi-Fi:\n      Current Network Information:\n            HomeNet:\n              Channel: 6\n      Other Local Wi-Fi Networks:\n            CafeWifi:\n              Channel: 11\n              Security: WPA2 Personal\n              Signal / Noise: -45 dBm / -92 dBm\n            CafeWifi:\n              Channel: 11\n              Security: WPA3 Personal\n              Signal / Noise: -60 dBm / -92 dBm\n            HomeNet:\n              Channel: 6\n              Security: WPA2 Personal\n"

/-- The first-seen record for CafeWifi on channel 11 in wellFormedReport. -/
def cafeRecord : WiFiNetwork :=
  { ssid := "CafeWifi", rssi := -45, security := "WPA2 Personal", channel := "11",
    bssid := "CafeWifi-11", isConnected := false }

/-- A report whose networks section contains a hidden-network entry (a bare
colon line, i.e. an empty SSID) with a populated Channel property, followed
by a normal entry. -/
def hiddenNetworkReport : String :=
  "      Other Local Wi-Fi Networks:\n            :\n              Channel: 6\n            Cafe:\n              Channel: 11\n"

/-- A report with no recognizable section structure. -/
def garbageReport : String :=
  "random noise\nsection: value\n  indented stuff\n"

/-!
Claims.
-/

/-- C1, counterexample: a network labelled "open" (lowercase) satisfies the
claimed case-insensitive open condition, yet the code treats it as secured:
with no saved password the connect flow reports password-required and
invokes no OS command. -/
theorem claim_c1_counterexample :
    isOpenNetworkSpec lowerOpenNet = true ∧
    isOpenNetwork lowerOpenNet = false ∧
    tryConnectWithSavedPassword okExec emptyStorage lowerOpenNet "en0" =
      ({ success := false, message := "Password required for this network",
         requiresPassword := some true }, []) := by
  refine ⟨by decide, by decide, ?_⟩
  rfl

/-- C1 (amended): the connect flow treats a network as open — invoking the
OS primitive with the passwordless command and ignoring the credential
store — exactly when its security label is one of the exact strings "Open",
"OPEN" or "None"; lowercase or mixed-case variants are treated as
secured. -/
theorem claim_c1_amended (osExec : String → Except String Unit) (wifiInterface : String)
    (n : WiFiNetwork) :
    ((∀ storage : String → Option String,
        (tryConnectWithSavedPassword osExec storage n wifiInterface).2 =
          [openConnectCommand wifiInterface n.ssid]) ↔
      (n.security = "Open" ∨ n.security = "OPEN" ∨ n.security = "None")) ∧
    ((n.security = "Open" ∨ n.security = "OPEN" ∨ n.security = "None") →
      ∀ storage storage2 : String → Option String,
        tryConnectWithSavedPassword osExec storage n wifiInterface =
          tryConnectWithSavedPassword osExec storage2 n wifiInterface) := by
  have hopen_case : isOpenNetwork n = true → ∀ storage : String → Option String,
      tryConnectWithSavedPassword osExec storage n wifiInterface =
        execConnect osExec (openConnectCommand wifiInterface n.ssid) n := by
    intro h storage
    unfold tryConnectWithSavedPassword
    rw [if_pos h]
    exact connectToNetwork_open osExec n wifiInterface none h
  constructor
  · constructor
    · intro htr
      by_cases h : isOpenNetwork n = true
      · exact (isOpenNetwork_iff n).mp h
      · exfalso
        rw [Bool.not_eq_true] at h
        have h2 := htr (fun _ => none)
        rw [tryConnect_secured osExec (fun _ => none) n wifiInterface h] at h2
        simp [getSavedPassword, optTruthy] at h2
    · intro hsecu storage
      rw [hopen_case ((isOpenNetwork_iff n).mpr hsecu) storage]
      exact execConnect_trace osExec _ n
  · intro hsecu storage storage2
    rw [hopen_case ((isOpenNetwork_iff n).mpr hsecu) storage,
      hopen_case ((isOpenNetwork_iff n).mpr hsecu) storage2]

/-- C1, witness: an exactly-"Open" network yields exactly the passwordless
command, whatever the credential store holds. -/
theorem claim_c1_witness :
    (tryConnectWithSavedPassword okExec emptyStorage openNet "en0").2 =
      [openConnectCommand "en0" "CafeWifi"] :=
  (claim_c1_amended okExec "en0" openNet).1.mpr (Or.inl rfl) emptyStorage

/-- Saved-password flow, success case: one invocation with the escaped
saved password, result marked usedSavedPassword. -/
theorem tryConnect_saved_ok (osExec : String → Except String Unit)
    (storage : String → Option String) (n : WiFiNetwork) (wifiInterface p : String)
    (hsec : isOpenNetwork n = false) (hp : getSavedPassword storage n.ssid = some p)
    (hok : osExec (securedConnectCommand wifiInterface n.ssid (escapePassword p)) = Except.ok ()) :
    tryConnectWithSavedPassword osExec storage n wifiInterface =
      ({ success := true, message := "Connected to " ++ n.ssid, usedSavedPassword := some true },
        [securedConnectCommand wifiInterface n.ssid (escapePassword p)]) := by
  have hpne := (getSavedPassword_some storage n.ssid p hp).1
  rw [tryConnect_secured osExec storage n wifiInterface hsec, hp]
  rw [if_pos (by simp [optTruthy, hpne])]
  rw [connectToNetwork_secured osExec n wifiInterface p hsec hpne]
  simp [execConnect, hok]

/-- Saved-password flow, failure case: one invocation, no retry, and the
fixed password-required message. -/
theorem tryConnect_saved_err (osExec : String → Except String Unit)
    (storage : String → Option String) (n : WiFiNetwork) (wifiInterface p e : String)
    (hsec : isOpenNetwork n = false) (hp : getSavedPassword storage n.ssid = some p)
    (herr : osExec (securedConnectCommand wifiInterface n.ssid (escapePassword p)) =
      Except.error e) :
    tryConnectWithSavedPassword osExec storage n wifiInterface =
      ({ success := false, message := "Saved password didn\x27t work", requiresPassword := some true },
        [securedConnectCommand wifiInterface n.ssid (escapePassword p)]) := by
  have hpne := (getSavedPassword_some storage n.ssid p hp).1
  rw [tryConnect_secured osExec storage n wifiInterface hsec, hp]
  rw [if_pos (by simp [optTruthy, hpne])]
  rw [connectToNetwork_secured osExec n wifiInterface p hsec hpne]
  simp only [execConnect, herr]
  have hf : (classifyError e).success = false := by
    unfold classifyError
    split
    · rfl
    · split <;> rfl
  simp [hf]

/-- Saved-password flow with no saved password: password-required with an
empty command trace. -/
theorem tryConnect_nosaved (osExec : String → Except String Unit)
    (storage : String → Option String) (n : WiFiNetwork) (wifiInterface : String)
    (hsec : isOpenNetwork n = false) (hp : getSavedPassword storage n.ssid = none) :
    tryConnectWithSavedPassword osExec storage n wifiInterface =
      ({ success := false, message := "Password required for this network",
         requiresPassword := some true }, []) := by
  rw [tryConnect_secured osExec storage n wifiInterface hsec, hp]
  rfl

/-- C2: for a secured network connected through the saved-password flow, an
accepted saved password yields success flagged usedSavedPassword after one
invocation; a rejected saved password yields the "Saved password didn\x27t
work" password-required outcome after exactly one invocation (no retry);
and with no saved password the flow reports password-required with zero
invocations of the OS connect primitive. -/
theorem claim_c2 (osExec : String → Except String Unit) (storage : String → Option String)
    (n : WiFiNetwork) (wifiInterface : String) (hsec : isOpenNetwork n = false) :
    (∀ p, getSavedPassword storage n.ssid = some p →
      (osExec (securedConnectCommand wifiInterface n.ssid (escapePassword p)) = Except.ok () →
        tryConnectWithSavedPassword osExec storage n wifiInterface =
          ({ success := true, message := "Connected to " ++ n.ssid, usedSavedPassword := some true },
            [securedConnectCommand wifiInterface n.ssid (escapePassword p)])) ∧
      (∀ e, osExec (securedConnectCommand wifiInterface n.ssid (escapePassword p)) =
          Except.error e →
        tryConnectWithSavedPassword osExec storage n wifiInterface =
          ({ success := false, message := "Saved password didn\x27t work",
             requiresPassword := some true },
            [securedConnectCommand wifiInterface n.ssid (escapePassword p)]))) ∧
    (getSavedPassword storage n.ssid = none →
      tryConnectWithSavedPassword osExec storage n wifiInterface =
        ({ success := false, message := "Password required for this network",
           requiresPassword := some true }, [])) := by
  refine ⟨fun p hp => ⟨?_, ?_⟩, ?_⟩
  · intro hok
    exact tryConnect_saved_ok osExec storage n wifiInterface p hsec hp hok
  · intro e herr
    exact tryConnect_saved_err osExec storage n wifiInterface p e hsec hp herr
  · intro hp
    exact tryConnect_nosaved osExec storage n wifiInterface hsec hp

/-- C2, witness: the three branches at concrete inputs — accepted saved
password, rejected saved password, and no saved password. -/
theorem claim_c2_witness :
    tryConnectWithSavedPassword okExec pwStorage securedNet "en0" =
      ({ success := true, message := "Connected to Sec", usedSavedPassword := some true },
        [securedConnectCommand "en0" "Sec" (escapePassword "pw")]) ∧
    tryConnectWithSavedPassword authFailExec pwStorage securedNet "en0" =
      ({ success := false, message := "Saved password didn\x27t work", requiresPassword := some true },
        [securedConnectCommand "en0" "Sec" (escapePassword "pw")]) ∧
    tryConnectWithSavedPassword okExec emptyStorage securedNet "en0" =
      ({ success := false, message := "Password required for this network",
         requiresPassword := some true }, []) := by
  refine ⟨?_, ?_, ?_⟩
  · exact ((claim_c2 okExec pwStorage securedNet "en0" (by decide)).1 "pw" (by decide)).1 rfl
  · exact ((claim_c2 authFailExec pwStorage securedNet "en0" (by decide)).1 "pw" (by decide)).2
      "Error: authentication failed" rfl
  · exact (claim_c2 okExec emptyStorage securedNet "en0" (by decide)).2 (by decide)

/-- Normal form of handleConnect outside the password-form branch. -/
theorem handleConnect_eq (osExec : String → Except String Unit) (scanExec : Except String String)
    (now : Int) (wifiInterface : String) (n : WiFiNetwork) (password : Option String)
    (slot : Option CachedData)
    (hpw : (!(optTruthy password) && !(n.security == "Open") && !(n.security == "OPEN")) = false) :
    handleConnect osExec scanExec now wifiInterface n password slot =
      (if (connectToNetwork osExec n wifiInterface password).1.success then
        (ConnectOutcome.connected (connectToNetwork osExec n wifiInterface password).1.message,
          (loadNetworks scanExec now none).2)
      else
        (ConnectOutcome.connectFailed (connectToNetwork osExec n wifiInterface password).1.message,
          slot)) := by
  unfold handleConnect
  rw [if_neg (by simp [hpw])]
  cases hs : (connectToNetwork osExec n wifiInterface password).1.success
  · simp [hs]
  · simp [hs, clearNetworksCache]

/-- C3, counterexample: a failed connection attempt (secured network,
explicit password, primitive throws an authentication error) leaves the
cache slot untouched, and a subsequent cache read still returns the old
entry instead of absent. -/
theorem claim_c3_counterexample :
    (handleConnect authFailExec (Except.ok "") 0 "en0" securedNet (some "pw")
      (some homeCache)).1 =
      ConnectOutcome.connectFailed "Incorrect password or authentication failed" ∧
    (handleConnect authFailExec (Except.ok "") 0 "en0" securedNet (some "pw")
      (some homeCache)).2 = some homeCache ∧
    getCachedNetworks 0 ((handleConnect authFailExec (Except.ok "") 0 "en0" securedNet
      (some "pw") (some homeCache)).2) = some homeCache := by
  refine ⟨rfl, rfl, by decide⟩

/-- C3 (amended): the cache slot is cleared exactly on a successful
connection attempt — the resulting slot is then independent of the previous
slot contents (the cleared slot is immediately re-populated by the
triggered reload); after a failed attempt, or when the password form is
shown instead, the slot is left unchanged. -/
theorem claim_c3_amended (osExec : String → Except String Unit) (scanExec : Except String String)
    (now : Int) (wifiInterface : String) (n : WiFiNetwork) (password : Option String)
    (slot : Option CachedData) :
    ((∃ m, (handleConnect osExec scanExec now wifiInterface n password slot).1 =
        ConnectOutcome.connected m) →
      (handleConnect osExec scanExec now wifiInterface n password slot).2 =
        (loadNetworks scanExec now none).2) ∧
    (¬(∃ m, (handleConnect osExec scanExec now wifiInterface n password slot).1 =
        ConnectOutcome.connected m) →
      (handleConnect osExec scanExec now wifiInterface n password slot).2 = slot) := by
  by_cases hpw : (!(optTruthy password) && !(n.security == "Open") && !(n.security == "OPEN")) = true
  · unfold handleConnect
    rw [if_pos hpw]
    constructor
    · rintro ⟨m, hm⟩
      exact ConnectOutcome.noConfusion hm
    · intro _
      rfl
  · rw [Bool.not_eq_true] at hpw
    rw [handleConnect_eq osExec scanExec now wifiInterface n password slot hpw]
    cases hs : (connectToNetwork osExec n wifiInterface password).1.success
    · rw [if_neg (by simp)]
      constructor
      · rintro ⟨m, hm⟩
        exact ConnectOutcome.noConfusion hm
      · intro _
        rfl
    · rw [if_pos rfl]
      constructor
      · intro _
        rfl
      · intro hne
        exact absurd ⟨_, rfl⟩ hne

/-- C3, witness: a successful attempt rewrites the slot from a fresh scan
regardless of its prior contents, and a failed attempt leaves a concrete
prior slot in place. -/
theorem claim_c3_witness :
    (handleConnect okExec (Except.ok "") 0 "en0" securedNet (some "pw") (some homeCache)).2 =
      (loadNetworks (Except.ok "") 0 none).2 ∧
    (handleConnect authFailExec (Except.ok "") 0 "en0" securedNet (some "pw")
      (some homeCache)).2 = some homeCache := by
  constructor
  · exact (claim_c3_amended okExec (Except.ok "") 0 "en0" securedNet (some "pw")
      (some homeCache)).1 ⟨"Connected to Sec", rfl⟩
  · refine (claim_c3_amended authFailExec (Except.ok "") 0 "en0" securedNet (some "pw")
      (some homeCache)).2 ?_
    rintro ⟨m, hm⟩
    rw [show (handleConnect authFailExec (Except.ok "") 0 "en0" securedNet (some "pw")
      (some homeCache)).1 =
      ConnectOutcome.connectFailed "Incorrect password or authentication failed" from rfl] at hm
    exact ConnectOutcome.noConfusion hm

/-- C4: the scan-and-parse operation is total by construction, and yields
the empty snapshot both when the scan command throws (non-zero exit,
timeout) and when the report text contains neither of the two recognizable
section headers. -/
theorem claim_c4 (err output : String)
    (h : ∀ l ∈ reportLines output,
      strContains l "Current Network Information:" = false ∧
      strContains (jsTrim l) "Other Local Wi-Fi Networks:" = false) :
    scanNetworksAndGetCurrent (Except.error err) = ("", []) ∧
    parseReport output = ("", []) := by
  constructor
  · rfl
  · show (findCurrentNetwork (reportLines output) false,
      sortByRssiDesc (dedupNetworks (parseLoop (reportLines output) false {} 0
        (findCurrentNetwork (reportLines output) false)))) = ("", [])
    rw [findCurrentNetwork_no_header (reportLines output) (fun l hl => (h l hl).1)]
    rw [parseLoop_no_section (reportLines output) (fun l hl => (h l hl).2) {} 0 ""]
    rfl

/-- C4, witness: a thrown scan and a structureless report both produce the
empty snapshot. -/
theorem claim_c4_witness :
    scanNetworksAndGetCurrent (Except.error "timeout") = ("", []) ∧
    parseReport garbageReport = ("", []) :=
  claim_c4 "timeout" garbageReport (by decide)

/-- C5: every record of every parsed snapshot has a non-empty ssid and a
non-empty channel; the flush guard never emits an accumulated entry missing
either. -/
theorem claim_c5 (output : String) (r : WiFiNetwork) (hr : r ∈ (parseReport output).2) :
    r.ssid ≠ "" ∧ r.channel ≠ "" :=
  parseReport_mem_nonempty output r hr

/-- C5, witness: a concrete record of a concrete parsed report. -/
theorem claim_c5_witness :
    cafeRecord ∈ (parseReport wellFormedReport).2 ∧
    cafeRecord.ssid ≠ "" ∧ cafeRecord.channel ≠ "" := by
  have hmem : cafeRecord ∈ (parseReport wellFormedReport).2 := by decide
  exact ⟨hmem, claim_c5 wellFormedReport cafeRecord hmem⟩

/-- The record surviving the hidden-network report. -/
def hiddenSurvivor : WiFiNetwork :=
  { ssid := "Cafe", rssi := -70, security := "Unknown", channel := "11",
    bssid := "Cafe-11", isConnected := false }

/-- C6, counterexample: a report containing a hidden-network entry (empty
SSID, populated Channel) parses to a record list without it — and no parsed
snapshot of any report can ever contain an empty-ssid record, refuting the
claim that such entries are kept. -/
theorem claim_c6_counterexample :
    (parseReport hiddenNetworkReport).2 = [hiddenSurvivor] ∧
    ¬∃ (output : String) (r : WiFiNetwork), r ∈ (parseReport output).2 ∧ r.ssid = "" := by
  constructor
  · rfl
  · rintro ⟨output, r, hr, hssid⟩
    exact (parseReport_mem_nonempty output r hr).1 hssid

/-- C6 (amended): an entry with an empty SSID is never kept: property lines
are not attached to an accumulated entry whose ssid is empty (JS
truthiness), and the flush guard drops it, so every record of every parsed
snapshot has a non-empty ssid. -/
theorem claim_c6_amended (output : String) (r : WiFiNetwork)
    (hr : r ∈ (parseReport output).2) : r.ssid ≠ "" :=
  (parseReport_mem_nonempty output r hr).1

/-- C6, witness: the surviving record of the hidden-network report has a
non-empty ssid. -/
theorem claim_c6_witness :
    hiddenSurvivor ∈ (parseReport hiddenNetworkReport).2 ∧ hiddenSurvivor.ssid ≠ "" := by
  have hmem : hiddenSurvivor ∈ (parseReport hiddenNetworkReport).2 := by decide
  exact ⟨hmem, claim_c6_amended hiddenNetworkReport _ hmem⟩

/-- C7: no two records of a parsed snapshot share the same (ssid, channel)
key, and every snapshot record is the first entry of the raw accumulated
list that carries its key (first occurrence wins, attributes kept). -/
theorem claim_c7 (output : String) :
    (((parseReport output).2).map netKey).Nodup ∧
    ∀ r ∈ (parseReport output).2,
      ((parseLoop (reportLines output) false {} 0
        (findCurrentNetwork (reportLines output) false)).filter
          (fun n => netKey n == netKey r)).head? = some r := by
  constructor
  · rw [parseReport_records]
    exact ((sortByRssiDesc_perm _).map netKey).nodup_iff.mpr (dedupAux_keys_nodup _ [])
  · intro r hr
    rw [parseReport_records] at hr
    have h1 := (sortByRssiDesc_perm _).mem_iff.mp hr
    exact (dedupAux_first _ [] r h1).2

/-- C7, witness: in the duplicated report, the snapshot keys are distinct
and the kept CafeWifi record is the first raw occurrence with its
attributes. -/
theorem claim_c7_witness :
    (((parseReport wellFormedReport).2).map netKey).Nodup ∧
    ((parseLoop (reportLines wellFormedReport) false {} 0
      (findCurrentNetwork (reportLines wellFormedReport) false)).filter
        (fun n => netKey n == netKey cafeRecord)).head? = some cafeRecord := by
  refine ⟨(claim_c7 wellFormedReport).1, ?_⟩
  have hmem : cafeRecord ∈ (parseReport wellFormedReport).2 := by decide
  exact (claim_c7 wellFormedReport).2 cafeRecord hmem

/-- An out-of-date cache entry (version 2). -/
def oldVersionCache : CachedData :=
  { version := 2, networks := [], currentSSID := "Home", timestamp := 0 }

/-- C8: cache round trip — a write followed by an immediate read (same
clock value) returns the written entry; a read once CACHE_DURATION has
elapsed returns absent; a read of an entry with a different version tag
returns absent; a read after invalidate returns absent. -/
theorem claim_c8 (tw tr : Int) (networks : List WiFiNetwork) (currentSSID : String)
    (slot : Option CachedData) :
    getCachedNetworks tw (setCachedNetworks tw networks currentSSID slot) =
      some { version := CACHE_VERSION, networks := networks, currentSSID := currentSSID,
             timestamp := tw } ∧
    (tr - tw ≥ CACHE_DURATION →
      getCachedNetworks tr (setCachedNetworks tw networks currentSSID slot) = none) ∧
    (∀ d : CachedData, d.version ≠ CACHE_VERSION → getCachedNetworks tr (some d) = none) ∧
    getCachedNetworks tr (clearNetworksCache slot) = none := by
  refine ⟨?_, ?_, ?_, rfl⟩
  · unfold getCachedNetworks setCachedNetworks
    dsimp only []
    rw [if_pos]
    rw [Bool.and_eq_true]
    constructor
    · exact beq_self_eq_true CACHE_VERSION
    · rw [decide_eq_true_eq]
      rw [Int.sub_self]
      unfold CACHE_DURATION
      omega
  · intro hexp
    unfold getCachedNetworks setCachedNetworks
    dsimp only []
    rw [if_neg]
    rw [Bool.and_eq_true]
    rintro ⟨-, hlt⟩
    rw [decide_eq_true_eq] at hlt
    exact absurd hexp (not_le.mpr hlt)
  · intro d hd
    unfold getCachedNetworks
    dsimp only []
    rw [if_neg]
    rw [Bool.and_eq_true]
    rintro ⟨hv, -⟩
    exact hd (beq_iff_eq.mp hv)

/-- C8, witness: the four cache behaviors at concrete times and entries. -/
theorem claim_c8_witness :
    getCachedNetworks 0 (setCachedNetworks 0 [] "Home" none) =
      some { version := CACHE_VERSION, networks := [], currentSSID := "Home",
             timestamp := 0 } ∧
    getCachedNetworks 5000 (setCachedNetworks 0 [] "Home" none) = none ∧
    getCachedNetworks 0 (some oldVersionCache) = none ∧
    getCachedNetworks 0 (clearNetworksCache (some homeCache)) = none := by
  obtain ⟨h1, h2, h3, h4⟩ := claim_c8 0 5000 [] "Home" none
  exact ⟨h1, h2 (by decide), h3 oldVersionCache (by decide), h4⟩

/-- C9, counterexample: an explicitly supplied empty password for a secured
network does not reach the OS primitive at all — the JS truthiness test
sends it to the password-required branch with zero invocations, refuting
the claim for the empty password. -/
theorem claim_c9_counterexample :
    (connectToNetwork okExec securedNet "en0" (some "")).2 = [] ∧
    (connectToNetwork okExec securedNet "en0" (some "")).1 =
      { success := false, message := "Password required for this network",
        requiresPassword := some true } := by
  exact ⟨rfl, rfl⟩

/-- C9 (amended): for every non-empty explicit password supplied for a
secured network, the primitive is invoked exactly once with the command
embedding the escaped password; the escape is the per-character expansion
prefixing a backslash to each double quote, dollar sign and backquote, so
every metacharacter occurrence in the escaped string is backslash-prefixed.
connectToNetwork takes no credential-store argument: explicit-password
connects perform no credential lookup by construction. -/
theorem claim_c9_amended (osExec : String → Except String Unit) (n : WiFiNetwork)
    (wifiInterface p : String) (hsec : isOpenNetwork n = false) (hp : p ≠ "") :
    (connectToNetwork osExec n wifiInterface (some p)).2 =
      [securedConnectCommand wifiInterface n.ssid (escapePassword p)] ∧
    (escapePassword p).data = p.data.flatMap escOne ∧
    (∀ i, isShellMeta ((escapePassword p).data.getD i 'a') = true →
      0 < i ∧ (escapePassword p).data.getD (i - 1) 'a' = backslashChar) := by
  refine ⟨?_, escapePassword_data p, ?_⟩
  · rw [connectToNetwork_secured osExec n wifiInterface p hsec hp]
    exact execConnect_trace osExec _ n
  · intro i hi
    rw [escapePassword_data p] at hi ⊢
    exact flatMap_escOne_meta_prefixed p.data i hi

/-- C9, witness: a concrete metacharacter-laden password is escaped and
passed in the single built command; the metacharacter at position 2 of the
escaped string is preceded by a backslash. -/
theorem claim_c9_witness :
    (connectToNetwork okExec securedNet "en0" (some "a\"b$c")).2 =
      [securedConnectCommand "en0" "Sec" (escapePassword "a\"b$c")] ∧
    (0 < 2 ∧ (escapePassword "a\"b$c").data.getD (2 - 1) 'a' = backslashChar) := by
  have h := claim_c9_amended okExec securedNet "en0" "a\"b$c" (by decide) (by decide)
  exact ⟨h.1, h.2.2 2 (by decide)⟩

/-- C10: credential lookups are total (modelled as total functions; every
thrown error is caught) and never produce the empty string —
fetchPasswordFromKeychain returns null on a failed store query or a secret
that trims to empty, getSavedPassword returns null on an absent or empty
stored value, and an empty stored password drives the same
password-required branch as an absent one. -/
theorem claim_c10 (keychainExec : String → Except String String)
    (storage : String → Option String) (ssid : String) :
    (∀ e, keychainExec (keychainCommand ssid) = Except.error e →
      fetchPasswordFromKeychain keychainExec ssid = none) ∧
    (∀ raw, keychainExec (keychainCommand ssid) = Except.ok raw → jsTrim raw = "" →
      fetchPasswordFromKeychain keychainExec ssid = none) ∧
    fetchPasswordFromKeychain keychainExec ssid ≠ some "" ∧
    (storage (storageKeyBase ++ ssid) = none → getSavedPassword storage ssid = none) ∧
    (storage (storageKeyBase ++ ssid) = some "" → getSavedPassword storage ssid = none) ∧
    getSavedPassword storage ssid ≠ some "" ∧
    (∀ (osExec : String → Except String Unit) (n : WiFiNetwork) (wifiInterface : String),
      n.ssid = ssid → isOpenNetwork n = false → getSavedPassword storage ssid = none →
      tryConnectWithSavedPassword osExec storage n wifiInterface =
        ({ success := false, message := "Password required for this network",
           requiresPassword := some true }, [])) := by
  refine ⟨?_, ?_, ?_, ?_, ?_, getSavedPassword_ne_empty storage ssid, ?_⟩
  · intro e he
    unfold fetchPasswordFromKeychain
    rw [he]
  · intro raw hraw htrim
    unfold fetchPasswordFromKeychain
    rw [hraw]
    simp [htrim]
  · intro hcontra
    unfold fetchPasswordFromKeychain at hcontra
    cases hk : keychainExec (keychainCommand ssid) with
    | error e =>
      rw [hk] at hcontra
      exact Option.noConfusion hcontra
    | ok raw =>
      rw [hk] at hcontra
      dsimp only [] at hcontra
      by_cases ht : (jsTrim raw == "") = true
      · rw [if_pos ht] at hcontra
        exact Option.noConfusion hcontra
      · rw [if_neg ht] at hcontra
        rw [Bool.not_eq_true, beq_eq_false_iff_ne] at ht
        exact ht (by injection hcontra)
  · intro habs
    unfold getSavedPassword
    rw [habs]
  · intro hemp
    unfold getSavedPassword
    rw [hemp]
    rfl
  · intro osExec n wifiInterface hssid hsec hnone
    refine tryConnect_nosaved osExec storage n wifiInterface hsec ?_
    rw [hssid]
    exact hnone

/-- C10, witness: concrete failing, empty and absent lookups, and the
password-required outcome for an empty stored password. -/
theorem claim_c10_witness :
    fetchPasswordFromKeychain (fun _ => Except.error "not found") "Sec" = none ∧
    fetchPasswordFromKeychain (fun _ => Except.ok "   ") "Sec" = none ∧
    getSavedPassword (fun _ => some "") "Sec" = none ∧
    getSavedPassword emptyStorage "Sec" = none ∧
    tryConnectWithSavedPassword okExec (fun _ => some "") securedNet "en0" =
      ({ success := false, message := "Password required for this network",
         requiresPassword := some true }, []) := by
  obtain ⟨h1, h2, -, h4, h5, -, h7⟩ :=
    claim_c10 (fun _ => Except.error "not found") (fun _ => some "") "Sec"
  refine ⟨h1 "not found" rfl, ?_, h5 rfl, ?_, ?_⟩
  · exact (claim_c10 (fun _ => Except.ok "   ") (fun _ => some "") "Sec").2.1 "   " rfl (by decide)
  · exact (claim_c10 (fun _ => Except.error "x") emptyStorage "Sec").2.2.2.1 rfl
  · exact h7 okExec securedNet "en0" rfl (by decide) (h5 rfl)
